import Mathlib

/-!
Verification of the awx-exporter repository: a Go program that polls the AWX
REST API for hosts (and, in a second program variant, job templates) and
republishes the data as Prometheus metrics.

Shallow embedding notes:
* Prometheus gauge vectors are modelled as association lists from label-value
  tuples to values, newest entry first; `gset` mirrors
  `vec.WithLabelValues(...).Set(v)` (write-or-overwrite by exact label tuple)
  and `glookup` reads the current value of a series.
* Every value the program ever writes to a gauge is an integer (0/1 flags,
  Unix seconds, host counts), represented exactly by `float64`, so metric
  values are modelled as `Int`.
* `time.Parse(time.RFC3339, s)` is Go standard library code, outside this
  repository; it is passed in as a parameter `parse : String → Option Int`
  returning Unix seconds on success.
* The histogram `scrape_duration_seconds` records wall-clock durations; only
  the number of observations is modelled (the observed values are real time,
  outside the program's control).
-/

namespace Awx

/-- Label values identifying one series inside a gauge family. -/
abbrev LabelValues := List String

/-- One gauge family: association list from label tuple to value, newest first. -/
abbrev GaugeVec := List (LabelValues × Int)

/-- `vec.WithLabelValues(k...).Set(v)`: write-or-overwrite by exact label tuple. -/
def gset (k : LabelValues) (v : Int) (m : GaugeVec) : GaugeVec :=
  (k, v) :: m.filter (fun p => !(decide (p.1 = k)))

/-- Current value of the series with label tuple `k`, if any. -/
def glookup (m : GaugeVec) (k : LabelValues) : Option Int :=
  (m.find? (fun p => decide (p.1 = k))).map (fun p => p.2)

/-- The process-wide metric registry (metrics.go): the five entity gauge
families plus the three self-monitoring metrics (`scrape_errors_total`,
`hosts_processed_total`, and the observation count of
`scrape_duration_seconds`). -/
structure Registry where
  hostInfo : GaugeVec
  hostStatus : GaugeVec
  hostTimestamps : GaugeVec
  hostGroupMembership : GaugeVec
  groupInfo : GaugeVec
  scrapeErrors : Nat
  hostsProcessed : Nat
  scrapeDurationObs : Nat
deriving Repr, DecidableEq

/-- `ResetAllMetrics` (metrics.go): resets the five entity gauge families. -/
def ResetAllMetrics (r : Registry) : Registry :=
  { r with hostInfo := [], hostStatus := [], hostTimestamps := [],
           hostGroupMembership := [], groupInfo := [] }

/-- `IncrementHostsProcessed` (metrics.go): `hostsProcessed.Add(float64(count))`. -/
def IncrementHostsProcessed (count : Nat) (r : Registry) : Registry :=
  { r with hostsProcessed := r.hostsProcessed + count }

/-- `RecordScrapeError` (metrics.go): `scrapeErrors.Inc()`. -/
def RecordScrapeError (r : Registry) : Registry :=
  { r with scrapeErrors := r.scrapeErrors + 1 }

/-- `scrapeDuration.Observe(...)`: one more histogram observation. -/
def ObserveScrapeDuration (r : Registry) : Registry :=
  { r with scrapeDurationObs := r.scrapeDurationObs + 1 }

/-- One metric write issued by the host transformer, tagged by target family. -/
inductive MetricWrite where
  | info (labels : LabelValues) (v : Int)
  | status (labels : LabelValues) (v : Int)
  | tstamp (labels : LabelValues) (v : Int)
  | membership (labels : LabelValues) (v : Int)
  | ginfo (labels : LabelValues) (v : Int)
deriving Repr, DecidableEq

/-- Applying one tagged write to the registry. -/
def applyWrite (r : Registry) : MetricWrite → Registry
  | .info k v => { r with hostInfo := gset k v r.hostInfo }
  | .status k v => { r with hostStatus := gset k v r.hostStatus }
  | .tstamp k v => { r with hostTimestamps := gset k v r.hostTimestamps }
  | .membership k v => { r with hostGroupMembership := gset k v r.hostGroupMembership }
  | .ginfo k v => { r with groupInfo := gset k v r.groupInfo }

/-- Applying a write trace in order. -/
def applyWrites (r : Registry) (ws : List MetricWrite) : Registry :=
  ws.foldl applyWrite r

/-! ## Data model (models.go) -/

/-- `Inventory` (models.go). -/
structure Inventory where
  id : Int
  name : String
deriving Repr, DecidableEq

/-- `Group` (models.go). -/
structure Group where
  id : Int
  name : String
deriving Repr, DecidableEq

/-- `Groups` (models.go). -/
structure Groups where
  count : Int
  results : List Group
deriving Repr, DecidableEq

/-- `SummaryFields` (models.go). -/
structure SummaryFields where
  inventory : Inventory
  groups : Groups
deriving Repr, DecidableEq

/-- `Host` (models.go). `ansibleFactsModified` is the nullable
`*string` field. -/
structure Host where
  id : Int
  created : String
  modified : String
  name : String
  inventory : Int
  enabled : Bool
  instanceID : String
  hasActiveFailures : Bool
  hasInventorySources : Bool
  ansibleFactsModified : Option String
  summaryFields : SummaryFields
deriving Repr, DecidableEq

/-- `HostResponse` (models.go): one page of the paginated hosts endpoint. -/
structure HostResponse where
  count : Int
  next : String
  previous : String
  results : List Host
deriving Repr, DecidableEq

/-- The Go standard library RFC3339 parser, abstracted: `some unixSeconds` on
success, `none` when `time.Parse(time.RFC3339, s)` returns an error. -/
abbrev RFC3339Parser := String → Option Int

/-! ## Host transformer (client.go, processing half) -/

/-- `boolToFloat` (client.go). The `float64` values 0 and 1 are integers,
modelled exactly. -/
def boolToFloat (b : Bool) : Int :=
  if b then 1 else 0

/-- `boolToString` (client.go). -/
def boolToString (b : Bool) : String :=
  if b then "true" else "false"

/-- `setTimestampMetric` (client.go): parse the RFC3339 string; on failure log
and return an error (no write); on success write the timestamp gauge. The
`Bool` is `true` when no error occurred. -/
def setTimestampMetric (parse : RFC3339Parser) (timestampStr id name event : String) :
    List MetricWrite × Bool :=
  match parse timestampStr with
  | none => ([], false)
  | some t => ([.tstamp [id, name, event] t], true)

/-- `processHostStatus` (client.go): two status writes with group label
`"none"` for a group-less host, else two per group, the same values fanned
out across groups. (The Go function always returns `nil`.) -/
def processHostStatus (host : Host) (idStr : String) : List MetricWrite :=
  let activeFailures := boolToFloat host.hasActiveFailures
  let inventorySources := boolToFloat host.hasInventorySources
  if host.summaryFields.groups.results = [] then
    [.status [idStr, host.name, "active_failures", "none"] activeFailures,
     .status [idStr, host.name, "inventory_sources", "none"] inventorySources]
  else
    host.summaryFields.groups.results.flatMap (fun group =>
      [.status [idStr, host.name, "active_failures", group.name] activeFailures,
       .status [idStr, host.name, "inventory_sources", group.name] inventorySources])

/-- `processHostTimestamps` (client.go): created, then modified, then the
optional facts-modified timestamp; the first parse error aborts with the
writes made so far. -/
def processHostTimestamps (parse : RFC3339Parser) (host : Host) (idStr : String) :
    List MetricWrite × Bool :=
  let c := setTimestampMetric parse host.created idStr host.name "created"
  if !c.2 then (c.1, false)
  else
    let m := setTimestampMetric parse host.modified idStr host.name "modified"
    if !m.2 then (c.1 ++ m.1, false)
    else
      match host.ansibleFactsModified with
      | none => (c.1 ++ m.1, true)
      | some s =>
        let f := setTimestampMetric parse s idStr host.name "ansible_facts_modified"
        (c.1 ++ m.1 ++ f.1, f.2)

/-- `processHostGroups` (client.go): per group one membership write keyed by
(host id, host name, group id, group name) and one group-info write keyed by
(group id, group name, inventory id). -/
def processHostGroups (host : Host) (idStr invIDStr : String) : List MetricWrite :=
  host.summaryFields.groups.results.flatMap (fun group =>
    let groupIDStr := toString group.id
    [.membership [idStr, host.name, groupIDStr, group.name] 1,
     .ginfo [groupIDStr, group.name, invIDStr] 1])

/-- `processHost` (client.go): info write, then status, then timestamps, then
groups; a timestamp error returns early, skipping the group writes. The
`Bool` is `true` when no error occurred. -/
def processHost (parse : RFC3339Parser) (host : Host) : List MetricWrite × Bool :=
  let idStr := toString host.id
  let invIDStr := toString host.summaryFields.inventory.id
  let enabledStr := boolToString host.enabled
  let infoW : MetricWrite :=
    .info [idStr, host.name, invIDStr, host.summaryFields.inventory.name,
           enabledStr, host.instanceID] 1
  let statusW := processHostStatus host idStr
  let ts := processHostTimestamps parse host idStr
  if !ts.2 then (infoW :: statusW ++ ts.1, false)
  else (infoW :: statusW ++ ts.1 ++ processHostGroups host idStr invIDStr, true)

/-- The write trace of a whole page: per-host traces concatenated (a host's
error is logged and the loop continues). -/
def processHostsWrites (parse : RFC3339Parser) (hosts : List Host) : List MetricWrite :=
  hosts.flatMap (fun h => (processHost parse h).1)

/-- `processHosts` (client.go): early return on an empty page; otherwise apply
every host's writes in order (per-host errors only logged), then
`IncrementHostsProcessed(len(hosts))`. -/
def processHosts (parse : RFC3339Parser) (hosts : List Host) (r : Registry) : Registry :=
  if hosts = [] then r
  else
    IncrementHostsProcessed hosts.length
      (hosts.foldl (fun acc h => applyWrites acc (processHost parse h).1) r)

/-! ## HTTP client (client.go, fetch half) -/

/-- `AWXConfig` (models.go): connection configuration. -/
structure AWXConfig where
  host : String
  user : String
  password : String
  useHTTP : Bool
  tlsInsecure : Bool
deriving Repr, DecidableEq

/-- `strings.HasPrefix`, modelled on the character list. -/
def hasPrefix (s pre : String) : Bool :=
  pre.toList.isPrefixOf s.toList

/-- `buildURL` (client.go): an absolute http/https URL is used verbatim; `""`
or `"/"` signals end of pagination (returns `""`); anything else is resolved
against the configured scheme and host, a missing leading `/` being added. -/
def buildURL (config : AWXConfig) (pathOrURL : String) : String :=
  if hasPrefix pathOrURL "http://" || hasPrefix pathOrURL "https://" then
    pathOrURL
  else if pathOrURL = "/" || pathOrURL = "" then
    ""
  else if hasPrefix pathOrURL "/" then
    let protocol := if config.useHTTP then "http" else "https"
    protocol ++ "://" ++ config.host ++ pathOrURL
  else
    let path := "/" ++ pathOrURL
    let protocol := if config.useHTTP then "http" else "https"
    protocol ++ "://" ++ config.host ++ path

/-- Errors `makeAWXRequest` can report about a received response. -/
inductive AWXError where
  | apiError (status : Nat) (statusText : String) (body : String)
  | htmlError (url : String)
deriving Repr, DecidableEq

/-- Helper for `strings.Contains(s, "<html")`: substring search on the
character list. -/
def charListContains (pat : List Char) : List Char → Bool
  | [] => false
  | c :: cs => pat.isPrefixOf (c :: cs) || charListContains pat cs

/-- `strings.Contains(body, "<html")` from `makeAWXRequest`. -/
def containsHTMLMarker (s : String) : Bool :=
  charListContains "<html".toList s.toList

/-- The response-handling tail of `makeAWXRequest` (client.go): non-200 status
yields an error carrying status code, status text and the body; then a
status-200 body containing the HTML marker yields an error; else the body is
returned. -/
def handleResponse (urlStr : String) (status : Nat) (statusText body : String) :
    Except AWXError String :=
  if status ≠ 200 then .error (.apiError status statusText body)
  else if body.length > 0 && containsHTMLMarker body then .error (.htmlError urlStr)
  else .ok body

/-- `makeAWXRequest` followed by the caller's JSON decode: the decoder runs
only on a body that `handleResponse` accepted, so an HTML body is rejected
before any JSON parsing. -/
def fetchThenDecode {α : Type} (urlStr : String) (status : Nat) (statusText body : String)
    (decode : String → Option α) : Except AWXError (Option α) :=
  match handleResponse urlStr status statusText body with
  | .error e => .error e
  | .ok b => .ok (decode b)

/-! ## Scrape cycle (main.go) -/

/-- Outcome of fetching and JSON-decoding one page URL during a scrape:
`makeAWXRequest` error, `json.Unmarshal` error, or a decoded page. -/
inductive PageResult where
  | fetchError
  | decodeError
  | page (resp : HostResponse)
deriving Repr, DecidableEq

/-- The upstream API as seen through fetch-plus-decode, one outcome per URL. -/
abbrev API := String → PageResult

/-- The pagination loop body of `fetchAndUpdateMetrics` (main.go): fetch each
page, on fetch or decode failure `RecordScrapeError` and stop with an error;
otherwise `processHosts` on the page and continue at `buildURL(next)` until it
is empty. Returns the registry, an error flag, and the number of fetches
made. `fuel` bounds the recursion (the Go loop has no page cap). -/
def scrapeLoop (config : AWXConfig) (parse : RFC3339Parser) (api : API) :
    Nat → String → Registry → Registry × Bool × Nat
  | 0, _, r => (r, false, 0)
  | fuel + 1, nextURL, r =>
    if nextURL = "" then (r, false, 0)
    else
      match api nextURL with
      | .fetchError => (RecordScrapeError r, true, 1)
      | .decodeError => (RecordScrapeError r, true, 1)
      | .page resp =>
        let r1 := processHosts parse resp.results r
        let rest := scrapeLoop config parse api fuel (buildURL config resp.next) r1
        (rest.1, rest.2.1, rest.2.2 + 1)

/-- `fetchAndUpdateMetrics` (main.go): reset the five entity families, walk
the pages from `/api/v2/hosts/?format=json`, and (via `defer`) observe the
scrape duration on both the success and the error path. Returns the registry
and the error flag. -/
def fetchAndUpdateMetrics (config : AWXConfig) (parse : RFC3339Parser) (api : API)
    (fuel : Nat) (r : Registry) : Registry × Bool :=
  let r0 := ResetAllMetrics r
  let res := scrapeLoop config parse api fuel (buildURL config "/api/v2/hosts/?format=json") r0
  (ObserveScrapeDuration res.1, res.2.1)

/-- One iteration of the `updateMetrics` collection loop (main.go): run
`fetchAndUpdateMetrics`; when it reports an error, log and
`RecordScrapeError` once more. -/
def updateMetricsStep (config : AWXConfig) (parse : RFC3339Parser) (api : API)
    (fuel : Nat) (r : Registry) : Registry :=
  let res := fetchAndUpdateMetrics config parse api fuel r
  if res.2 then RecordScrapeError res.1 else res.1

/-! ## Configuration (config.go) -/

/-- `strconv.Atoi`: optional sign, then one or more decimal digits, error
outside the 64-bit signed range. -/
def goAtoi (s : String) : Option Int :=
  let cs := s.toList
  let signed : Bool × List Char :=
    match cs with
    | '-' :: rest => (true, rest)
    | '+' :: rest => (false, rest)
    | _ => (false, cs)
  if signed.2 = [] then none
  else if !signed.2.all Char.isDigit then none
  else
    let n : Nat := signed.2.foldl (fun a c => a * 10 + (c.toNat - 48)) 0
    let v : Int := if signed.1 then -(n : Int) else (n : Int)
    if v < -(2 ^ 63) ∨ 2 ^ 63 - 1 < v then none else some v

/-- One minute of `time.Duration`, in nanoseconds. -/
def minuteNs : Int := 60 * 1000000000

/-- `defaultScrapeInterval` (config.go): `5 * time.Minute`. -/
def defaultScrapeInterval : Int := 5 * minuteNs

/-- `getScrapeInterval` (config.go), applied to the value of the
`SCRAPE_INTERVAL` environment variable (`""` when unset): a positive integer
is taken as minutes; any other value silently falls back to the default. -/
def getScrapeInterval (envValue : String) : Int :=
  if envValue ≠ "" then
    match goAtoi envValue with
    | some minutes => if minutes > 0 then minutes * minuteNs else defaultScrapeInterval
    | none => defaultScrapeInterval
  else defaultScrapeInterval

end Awx

namespace Awx.Tmpl

/-!
The second exporter variant (job templates): its `loadConfig`, metric
families and the per-template body of `scrapeAWX`. `time.ParseDuration` is Go
standard library code, passed in as `parseDuration : String → Option Int`
(nanoseconds on success).
-/

/-- `Config` of the job-template variant. Durations in nanoseconds. -/
structure Config where
  awxURL : String
  awxUsername : String
  awxPassword : String
  scrapeInterval : Int
  listenPort : String
  insecureSkipVerify : Bool
  requestTimeout : Int
deriving Repr, DecidableEq

/-- `getEnv` of the job-template variant: `os.LookupEnv` with a fallback for
an unset variable. The environment is modelled as `String → Option String`. -/
def getEnv (env : String → Option String) (key fallback : String) : String :=
  (env key).getD fallback

/-- `loadConfig` of the job-template variant: missing credentials or an
unparseable `SCRAPE_INTERVAL` duration string is an error (which `main` turns
into `log.Fatalf`, exiting the process). -/
def loadConfig (parseDuration : String → Option Int) (env : String → Option String) :
    Except String Config :=
  let username := (env "AWX_USERNAME").getD ""
  let password := (env "AWX_PASSWORD").getD ""
  if username = "" ∨ password = "" then
    .error "AWX_USERNAME and AWX_PASSWORD must be set"
  else
    let scrapeIntervalStr := getEnv env "SCRAPE_INTERVAL" "24h"
    match parseDuration scrapeIntervalStr with
    | none => .error "invalid SCRAPE_INTERVAL duration"
    | some scrapeInterval =>
      .ok { awxURL := getEnv env "AWX_URL" "https://awx",
            awxUsername := username,
            awxPassword := password,
            scrapeInterval := scrapeInterval,
            listenPort := ":" ++ getEnv env "EXPORTER_PORT" "8080",
            insecureSkipVerify := getEnv env "INSECURE_SKIP_VERIFY" "false" = "true",
            requestTimeout := 30 * 1000000000 }

/-- `SummaryFields` of the job-template variant: the embedded inventory
health summary. -/
structure SummaryFields where
  hostsWithFailures : Int
  totalHosts : Int
deriving Repr, DecidableEq

/-- `JobTemplate` of the job-template variant. -/
structure JobTemplate where
  id : Int
  name : String
  lastJobRun : String
  summaryFields : SummaryFields
deriving Repr, DecidableEq

/-- One write to the job-template metric families, labelled by
(job_template_id, job_template_name). -/
inductive TemplateWrite where
  | lastRun (id name : String) (v : Int)
  | failedHosts (id name : String) (v : Int)
  | totalHosts (id name : String) (v : Int)
deriving Repr, DecidableEq

/-- The per-template body of `scrapeAWX`: when `last_job_run` is non-empty
and parses as RFC3339, write the last-run timestamp gauge (else only log);
then always write the failed-host and total-host count gauges from the
embedded inventory summary. -/
def processTemplate (parse : Awx.RFC3339Parser) (t : JobTemplate) : List TemplateWrite :=
  let idStr := toString t.id
  let tsWrites : List TemplateWrite :=
    if t.lastJobRun ≠ "" then
      match parse t.lastJobRun with
      | some finishedTime => [.lastRun idStr t.name finishedTime]
      | none => []
    else []
  tsWrites ++
    [.failedHosts idStr t.name t.summaryFields.hostsWithFailures,
     .totalHosts idStr t.name t.summaryFields.totalHosts]

end Awx.Tmpl

namespace Awx

/-! ## Helper lemmas -/

@[simp] lemma applyWrite_scrapeErrors (r : Registry) (w : MetricWrite) :
    (applyWrite r w).scrapeErrors = r.scrapeErrors := by
  cases w <;> rfl

@[simp] lemma applyWrite_hostsProcessed (r : Registry) (w : MetricWrite) :
    (applyWrite r w).hostsProcessed = r.hostsProcessed := by
  cases w <;> rfl

@[simp] lemma applyWrite_scrapeDurationObs (r : Registry) (w : MetricWrite) :
    (applyWrite r w).scrapeDurationObs = r.scrapeDurationObs := by
  cases w <;> rfl

@[simp] lemma applyWrites_scrapeErrors (ws : List MetricWrite) (r : Registry) :
    (applyWrites r ws).scrapeErrors = r.scrapeErrors := by
  induction ws generalizing r with
  | nil => rfl
  | cons w ws ih =>
    rw [show applyWrites r (w :: ws) = applyWrites (applyWrite r w) ws from rfl,
        ih (applyWrite r w), applyWrite_scrapeErrors]

@[simp] lemma applyWrites_hostsProcessed (ws : List MetricWrite) (r : Registry) :
    (applyWrites r ws).hostsProcessed = r.hostsProcessed := by
  induction ws generalizing r with
  | nil => rfl
  | cons w ws ih =>
    rw [show applyWrites r (w :: ws) = applyWrites (applyWrite r w) ws from rfl,
        ih (applyWrite r w), applyWrite_hostsProcessed]

@[simp] lemma applyWrites_scrapeDurationObs (ws : List MetricWrite) (r : Registry) :
    (applyWrites r ws).scrapeDurationObs = r.scrapeDurationObs := by
  induction ws generalizing r with
  | nil => rfl
  | cons w ws ih =>
    rw [show applyWrites r (w :: ws) = applyWrites (applyWrite r w) ws from rfl,
        ih (applyWrite r w), applyWrite_scrapeDurationObs]

@[simp] lemma applyWrites_append (r : Registry) (a b : List MetricWrite) :
    applyWrites r (a ++ b) = applyWrites (applyWrites r a) b := by
  simp [applyWrites, List.foldl_append]

lemma processHosts_foldl_eq (parse : RFC3339Parser) (hosts : List Host) (r : Registry) :
    hosts.foldl (fun acc h => applyWrites acc (processHost parse h).1) r =
      applyWrites r (processHostsWrites parse hosts) := by
  induction hosts generalizing r with
  | nil => rfl
  | cons h hs ih =>
    simp [processHostsWrites, List.flatMap_cons, List.foldl_cons, ih]

lemma processHosts_eq (parse : RFC3339Parser) (hosts : List Host) (r : Registry)
    (h : hosts ≠ []) :
    processHosts parse hosts r =
      IncrementHostsProcessed hosts.length (applyWrites r (processHostsWrites parse hosts)) := by
  simp [processHosts, h, processHosts_foldl_eq]

@[simp] lemma IncrementHostsProcessed_hostInfo (n : Nat) (r : Registry) :
    (IncrementHostsProcessed n r).hostInfo = r.hostInfo := rfl

@[simp] lemma IncrementHostsProcessed_hostStatus (n : Nat) (r : Registry) :
    (IncrementHostsProcessed n r).hostStatus = r.hostStatus := rfl

@[simp] lemma IncrementHostsProcessed_hostTimestamps (n : Nat) (r : Registry) :
    (IncrementHostsProcessed n r).hostTimestamps = r.hostTimestamps := rfl

@[simp] lemma IncrementHostsProcessed_hostGroupMembership (n : Nat) (r : Registry) :
    (IncrementHostsProcessed n r).hostGroupMembership = r.hostGroupMembership := rfl

@[simp] lemma IncrementHostsProcessed_groupInfo (n : Nat) (r : Registry) :
    (IncrementHostsProcessed n r).groupInfo = r.groupInfo := rfl

@[simp] lemma processHosts_scrapeErrors (parse : RFC3339Parser) (hosts : List Host)
    (r : Registry) : (processHosts parse hosts r).scrapeErrors = r.scrapeErrors := by
  by_cases h : hosts = []
  · simp [processHosts, h]
  · simp [processHosts_eq parse hosts r h, IncrementHostsProcessed]

@[simp] lemma processHosts_scrapeDurationObs (parse : RFC3339Parser) (hosts : List Host)
    (r : Registry) : (processHosts parse hosts r).scrapeDurationObs = r.scrapeDurationObs := by
  by_cases h : hosts = []
  · simp [processHosts, h]
  · simp [processHosts_eq parse hosts r h, IncrementHostsProcessed]

lemma processHosts_hostsProcessed (parse : RFC3339Parser) (hosts : List Host)
    (r : Registry) :
    (processHosts parse hosts r).hostsProcessed = r.hostsProcessed + hosts.length := by
  by_cases h : hosts = []
  · simp [processHosts, h]
  · simp [processHosts_eq parse hosts r h, IncrementHostsProcessed]

lemma find?_filter_ne (m : GaugeVec) (k q : LabelValues) (hqk : q ≠ k) :
    List.find? (fun p => decide (p.1 = q)) (m.filter (fun p => !(decide (p.1 = k)))) =
      List.find? (fun p => decide (p.1 = q)) m := by
  induction m with
  | nil => rfl
  | cons a m ih =>
    by_cases hak : a.1 = k
    · have haq : ¬(a.1 = q) := fun h => hqk (h ▸ hak)
      have h1 : (decide (a.1 = k)) = true := by simp [hak]
      have h2 : (decide (a.1 = q)) = false := by simp [haq]
      simp only [List.filter_cons, List.find?_cons, h1, h2, Bool.not_true,
        Bool.false_eq_true, if_false, ih]
    · by_cases haq : a.1 = q
      · have h1 : (decide (a.1 = k)) = false := by simp [hak]
        have h2 : (decide (a.1 = q)) = true := by simp [haq]
        simp only [List.filter_cons, List.find?_cons, h1, h2, Bool.not_false,
          if_true, ih]
      · have h1 : (decide (a.1 = k)) = false := by simp [hak]
        have h2 : (decide (a.1 = q)) = false := by simp [haq]
        simp only [List.filter_cons, List.find?_cons, h1, h2, Bool.not_false,
          if_true, ih]

lemma glookup_gset (k : LabelValues) (v : Int) (m : GaugeVec) (q : LabelValues) :
    glookup (gset k v m) q = if q = k then some v else glookup m q := by
  by_cases hqk : q = k
  · subst hqk
    simp [glookup, gset, List.find?_cons]
  · have hk : ¬(k = q) := fun h => hqk h.symm
    simp [glookup, gset, List.find?_cons, hk, hqk, find?_filter_ne m k q hqk]

/-- The last value written to label tuple `q` by the writes of `ws` selected
by `sel`, if any. -/
def famLastVal (sel : MetricWrite → Option (LabelValues × Int)) :
    List MetricWrite → LabelValues → Option Int
  | [], _ => none
  | w :: ws, q =>
    match famLastVal sel ws q with
    | some v => some v
    | none =>
      match sel w with
      | some kv => if kv.1 = q then some kv.2 else none
      | none => none

lemma glookup_get_applyWrites (get : Registry → GaugeVec)
    (sel : MetricWrite → Option (LabelValues × Int))
    (hcompat : ∀ r w, get (applyWrite r w) =
      match sel w with
      | some kv => gset kv.1 kv.2 (get r)
      | none => get r) :
    ∀ (ws : List MetricWrite) (r : Registry) (q : LabelValues),
      glookup (get (applyWrites r ws)) q =
        match famLastVal sel ws q with
        | some v => some v
        | none => glookup (get r) q := by
  intro ws
  induction ws with
  | nil => intro r q; rfl
  | cons w ws ih =>
    intro r q
    have hstep : applyWrites r (w :: ws) = applyWrites (applyWrite r w) ws := rfl
    rw [hstep, ih (applyWrite r w) q]
    cases htail : famLastVal sel ws q with
    | some v => simp [famLastVal, htail]
    | none =>
      simp only [htail]
      rw [hcompat r w]
      cases hsel : sel w with
      | none => simp [famLastVal, htail, hsel]
      | some kv =>
        rw [glookup_gset]
        have hf : famLastVal sel (w :: ws) q = (if kv.1 = q then some kv.2 else none) := by
          simp [famLastVal, htail, hsel]
        rw [hf]
        by_cases hkq : kv.1 = q
        · subst hkq; simp
        · have hqk : ¬(q = kv.1) := fun h => hkq h.symm
          simp [hkq, hqk]

/-- Selector for writes to the host-info family. -/
def selInfo : MetricWrite → Option (LabelValues × Int)
  | .info k v => some (k, v)
  | _ => none

/-- Selector for writes to the host-status family. -/
def selStatus : MetricWrite → Option (LabelValues × Int)
  | .status k v => some (k, v)
  | _ => none

/-- Selector for writes to the host-timestamps family. -/
def selTstamp : MetricWrite → Option (LabelValues × Int)
  | .tstamp k v => some (k, v)
  | _ => none

/-- Selector for writes to the group-membership family. -/
def selMembership : MetricWrite → Option (LabelValues × Int)
  | .membership k v => some (k, v)
  | _ => none

/-- Selector for writes to the group-info family. -/
def selGinfo : MetricWrite → Option (LabelValues × Int)
  | .ginfo k v => some (k, v)
  | _ => none

lemma hcompat_info : ∀ (r : Registry) (w : MetricWrite),
    Registry.hostInfo (applyWrite r w) =
      match selInfo w with
      | some kv => gset kv.1 kv.2 r.hostInfo
      | none => r.hostInfo := by
  intro r w; cases w <;> rfl

lemma hcompat_status : ∀ (r : Registry) (w : MetricWrite),
    Registry.hostStatus (applyWrite r w) =
      match selStatus w with
      | some kv => gset kv.1 kv.2 r.hostStatus
      | none => r.hostStatus := by
  intro r w; cases w <;> rfl

lemma hcompat_tstamp : ∀ (r : Registry) (w : MetricWrite),
    Registry.hostTimestamps (applyWrite r w) =
      match selTstamp w with
      | some kv => gset kv.1 kv.2 r.hostTimestamps
      | none => r.hostTimestamps := by
  intro r w; cases w <;> rfl

lemma hcompat_membership : ∀ (r : Registry) (w : MetricWrite),
    Registry.hostGroupMembership (applyWrite r w) =
      match selMembership w with
      | some kv => gset kv.1 kv.2 r.hostGroupMembership
      | none => r.hostGroupMembership := by
  intro r w; cases w <;> rfl

lemma hcompat_ginfo : ∀ (r : Registry) (w : MetricWrite),
    Registry.groupInfo (applyWrite r w) =
      match selGinfo w with
      | some kv => gset kv.1 kv.2 r.groupInfo
      | none => r.groupInfo := by
  intro r w; cases w <;> rfl

lemma glookup_applyWrites_congr (get : Registry → GaugeVec)
    (sel : MetricWrite → Option (LabelValues × Int))
    (hcompat : ∀ r w, get (applyWrite r w) =
      match sel w with
      | some kv => gset kv.1 kv.2 (get r)
      | none => get r)
    (ws : List MetricWrite) (r1 r2 : Registry) (q : LabelValues)
    (h : glookup (get r1) q = glookup (get r2) q) :
    glookup (get (applyWrites r1 ws)) q = glookup (get (applyWrites r2 ws)) q := by
  rw [glookup_get_applyWrites get sel hcompat ws r1 q,
      glookup_get_applyWrites get sel hcompat ws r2 q]
  cases famLastVal sel ws q <;> simp [h]

lemma glookup_applyWrites_idem (get : Registry → GaugeVec)
    (sel : MetricWrite → Option (LabelValues × Int))
    (hcompat : ∀ r w, get (applyWrite r w) =
      match sel w with
      | some kv => gset kv.1 kv.2 (get r)
      | none => get r)
    (ws : List MetricWrite) (r : Registry) (q : LabelValues) :
    glookup (get (applyWrites (applyWrites r ws) ws)) q =
      glookup (get (applyWrites r ws)) q := by
  rw [glookup_get_applyWrites get sel hcompat ws (applyWrites r ws) q]
  cases h : famLastVal sel ws q with
  | some v => rw [glookup_get_applyWrites get sel hcompat ws r q, h]
  | none => rfl

lemma scrapeLoop_monotone (config : AWXConfig) (parse : RFC3339Parser) (api : API) :
    ∀ (fuel : Nat) (url : String) (r : Registry),
      r.scrapeErrors ≤ (scrapeLoop config parse api fuel url r).1.scrapeErrors ∧
      r.hostsProcessed ≤ (scrapeLoop config parse api fuel url r).1.hostsProcessed ∧
      r.scrapeDurationObs ≤ (scrapeLoop config parse api fuel url r).1.scrapeDurationObs := by
  intro fuel
  induction fuel with
  | zero => intro url r; exact ⟨le_refl _, le_refl _, le_refl _⟩
  | succ fuel ih =>
    intro url r
    by_cases hu : url = ""
    · simp [scrapeLoop, hu]
    · cases hapi : api url with
      | fetchError => simp [scrapeLoop, hu, hapi, RecordScrapeError]
      | decodeError => simp [scrapeLoop, hu, hapi, RecordScrapeError]
      | page resp =>
        have hrec := ih (buildURL config resp.next) (processHosts parse resp.results r)
        have hstep : (scrapeLoop config parse api (fuel + 1) url r).1 =
            (scrapeLoop config parse api fuel (buildURL config resp.next)
              (processHosts parse resp.results r)).1 := by
          simp [scrapeLoop, hu, hapi]
        rw [hstep]
        refine ⟨le_trans ?_ hrec.1, le_trans ?_ hrec.2.1, le_trans ?_ hrec.2.2⟩
        · rw [processHosts_scrapeErrors]
        · rw [processHosts_hostsProcessed]; omega
        · rw [processHosts_scrapeDurationObs]

lemma buildURL_rel_slash (config : AWXConfig) (p : String)
    (h1 : hasPrefix p "http://" = false) (h2 : hasPrefix p "https://" = false)
    (h3 : p ≠ "/") (h4 : p ≠ "") (h5 : hasPrefix p "/" = true) :
    buildURL config p =
      (if config.useHTTP then "http" else "https") ++ "://" ++ config.host ++ p := by
  simp [buildURL, h1, h2, h3, h4, h5]

lemma buildURL_rel_noslash (config : AWXConfig) (p : String)
    (h1 : hasPrefix p "http://" = false) (h2 : hasPrefix p "https://" = false)
    (h3 : p ≠ "/") (h4 : p ≠ "") (h5 : hasPrefix p "/" = false) :
    buildURL config p =
      (if config.useHTTP then "http" else "https") ++ "://" ++ config.host ++ ("/" ++ p) := by
  simp [buildURL, h1, h2, h3, h4, h5]

lemma buildURL_resolved_ne_empty (config : AWXConfig) (p : String) :
    ((if config.useHTTP then "http" else "https") ++ "://" ++ config.host ++ p) ≠ "" := by
  intro h
  have hlen := congrArg String.length h
  by_cases hh : config.useHTTP <;>
    simp [hh, String.length_append] at hlen <;>
    exact absurd hlen.1.1 (by decide)

lemma buildURL_start_ne_empty (config : AWXConfig) :
    buildURL config "/api/v2/hosts/?format=json" ≠ "" := by
  rw [buildURL_rel_slash config "/api/v2/hosts/?format=json" (by decide) (by decide)
    (by decide) (by decide) (by decide)]
  exact buildURL_resolved_ne_empty config "/api/v2/hosts/?format=json"

lemma scrapeLoop_empty_url (config : AWXConfig) (parse : RFC3339Parser) (api : API)
    (fuel : Nat) (r : Registry) : scrapeLoop config parse api fuel "" r = (r, false, 0) := by
  cases fuel <;> simp [scrapeLoop]

/-- Tag test: is this a write to the group-membership family? -/
def isMembershipWrite : MetricWrite → Bool
  | .membership _ _ => true
  | _ => false

/-- Tag test: is this a write to the group-info family? -/
def isGinfoWrite : MetricWrite → Bool
  | .ginfo _ _ => true
  | _ => false

lemma length_flatMap_pair {α β : Type} (l : List α) (f g : α → β) :
    (l.flatMap (fun a => [f a, g a])).length = 2 * l.length := by
  induction l with
  | nil => rfl
  | cons a l ih => simp [List.flatMap_cons, ih]; omega

lemma countP_flatMap_pair {α : Type} (l : List α) (f g : α → MetricWrite)
    (p : MetricWrite → Bool) (hf : ∀ a, p (f a) = true) (hg : ∀ a, p (g a) = false) :
    (l.flatMap (fun a => [f a, g a])).countP p = l.length := by
  induction l with
  | nil => rfl
  | cons a l ih => simp [List.flatMap_cons, List.countP_cons, hf a, hg a, ih]

lemma countP_flatMap_pair_right {α : Type} (l : List α) (f g : α → MetricWrite)
    (p : MetricWrite → Bool) (hf : ∀ a, p (f a) = false) (hg : ∀ a, p (g a) = true) :
    (l.flatMap (fun a => [f a, g a])).countP p = l.length := by
  induction l with
  | nil => rfl
  | cons a l ih => simp [List.flatMap_cons, List.countP_cons, hf a, hg a, ih]

/-! ## Claim theorems -/

/-- C10: processing a page adds the full length of the page's host list to
`hosts_processed_total`, regardless of per-host errors (the counter counts
hosts attempted); an empty page adds nothing and leaves the registry
untouched. -/
theorem c10_thm (parse : RFC3339Parser) (hosts : List Host) (r : Registry) :
    (processHosts parse hosts r).hostsProcessed = r.hostsProcessed + hosts.length ∧
    processHosts parse [] r = r := by
  exact ⟨processHosts_hostsProcessed parse hosts r, by simp [processHosts]⟩

/-- C4: `buildURL` uses an http/https-prefixed value verbatim, maps `""` and
the bare `"/"` sentinel to `""` (end of pagination, and the pagination loop
performs no fetch on an empty URL), and resolves any other value against the
configured scheme and host; in the pagination loop a page whose `next`
resolves to `""` is the last fetch (total one fetch for that page), while a
page whose `next` resolves to a non-empty URL causes exactly one additional
fetch beyond those of the remaining pages. -/
theorem c4_thm (config : AWXConfig) :
    (∀ p : String, (hasPrefix p "http://" || hasPrefix p "https://") = true →
      buildURL config p = p) ∧
    buildURL config "" = "" ∧
    buildURL config "/" = "" ∧
    (∀ p : String, hasPrefix p "http://" = false → hasPrefix p "https://" = false →
      p ≠ "" → p ≠ "/" →
      buildURL config p = (if config.useHTTP then "http" else "https") ++ "://" ++
        config.host ++ (if hasPrefix p "/" = true then p else "/" ++ p)) ∧
    (∀ (parse : RFC3339Parser) (api : API) (fuel : Nat) (r : Registry),
      scrapeLoop config parse api fuel "" r = (r, false, 0)) ∧
    (∀ (parse : RFC3339Parser) (api : API) (fuel : Nat) (u : String) (r : Registry)
      (resp : HostResponse), u ≠ "" → api u = .page resp →
      buildURL config resp.next = "" →
      (scrapeLoop config parse api (fuel + 1) u r).2.2 = 1) ∧
    (∀ (parse : RFC3339Parser) (api : API) (fuel : Nat) (u : String) (r : Registry)
      (resp : HostResponse), u ≠ "" → api u = .page resp →
      buildURL config resp.next ≠ "" →
      (scrapeLoop config parse api (fuel + 1) u r).2.2 =
        (scrapeLoop config parse api fuel (buildURL config resp.next)
          (processHosts parse resp.results r)).2.2 + 1) := by
  refine ⟨?_, ?_, ?_, ?_, ?_, ?_, ?_⟩
  · intro p hp
    simp [buildURL, hp]
  · have h : (hasPrefix "" "http://" || hasPrefix "" "https://") = false := by decide
    simp [buildURL, h]
  · have h : (hasPrefix "/" "http://" || hasPrefix "/" "https://") = false := by decide
    simp [buildURL, h]
  · intro p h1 h2 h3 h4
    by_cases h5 : hasPrefix p "/" = true
    · rw [buildURL_rel_slash config p h1 h2 h4 h3 h5]
      simp [h5]
    · have h5f : hasPrefix p "/" = false := by
        cases hb : hasPrefix p "/" with
        | true => exact absurd hb h5
        | false => rfl
      rw [buildURL_rel_noslash config p h1 h2 h4 h3 h5f]
      simp [h5f]
  · intro parse api fuel r
    exact scrapeLoop_empty_url config parse api fuel r
  · intro parse api fuel u r resp hu hapi hnext
    simp [scrapeLoop, hu, hapi, hnext, scrapeLoop_empty_url]
  · intro parse api fuel u r resp hu hapi hnext
    simp [scrapeLoop, hu, hapi, hnext]

/-- C5 (amended): `makeAWXRequest` returns an error exactly when the status
is not 200 (not: any 2xx), the error carrying the status code and the full
body; and a 200-status body containing the `<html` marker is rejected before
the JSON decoder ever runs. -/
theorem c5_thm (urlStr : String) (status : Nat) (statusText body : String) :
    (status ≠ 200 →
      handleResponse urlStr status statusText body = .error (.apiError status statusText body)) ∧
    (status = 200 → body ≠ "" → containsHTMLMarker body = true →
      ∀ (decode : String → Option HostResponse),
        fetchThenDecode urlStr status statusText body decode = .error (.htmlError urlStr)) ∧
    (status = 200 → containsHTMLMarker body = false →
      handleResponse urlStr status statusText body = .ok body) := by
  refine ⟨?_, ?_, ?_⟩
  · intro h
    simp [handleResponse, h]
  · intro h hb hm decode
    have hlen : 0 < body.length := by
      cases hb' : body.length with
      | zero =>
        exfalso
        apply hb
        cases body with
        | mk data =>
          cases data with
          | nil => rfl
          | cons c cs => simp [String.length] at hb'
      | succ n => omega
    simp [fetchThenDecode, handleResponse, h, hm, hlen]
  · intro h hm
    simp [handleResponse, h, hm]

/-- C5 counterexample: status 201 is a 2xx success, yet the fetch returns an
error — the code tests for exactly 200, refuting "error exactly when the
status is not a 2xx success status". -/
theorem c5_counterexample :
    handleResponse "u" 201 "201 Created" "[]" = .error (.apiError 201 "201 Created" "[]") ∧
    200 ≤ 201 ∧ 201 < 300 := by
  exact ⟨rfl, by decide, by decide⟩

/-- C5 witness: the amended behaviour evaluated at concrete inputs. -/
theorem c5_witness :
    handleResponse "u" 404 "404 Not Found" "nope" = .error (.apiError 404 "404 Not Found" "nope") ∧
    fetchThenDecode "u" 200 "200 OK" "<html><body>login</body>"
      (fun _ => some ({ count := 0, next := "", previous := "", results := [] } : HostResponse)) =
      .error (.htmlError "u") ∧
    handleResponse "u" 200 "200 OK" "ok-body" = .ok "ok-body" := by
  refine ⟨(c5_thm "u" 404 "404 Not Found" "nope").1 (by decide),
    (c5_thm "u" 200 "200 OK" "<html><body>login</body>").2.1 rfl (by decide) (by decide) _,
    (c5_thm "u" 200 "200 OK" "ok-body").2.2 rfl (by decide)⟩

/-- Concrete configuration used by witnesses and counterexamples. -/
def cfgW : AWXConfig :=
  { host := "h", user := "u", password := "pw", useHTTP := false, tlsInsecure := false }

/-- A parser under which every timestamp string fails to parse. -/
def parseNone : RFC3339Parser := fun _ => none

/-- A terminal page: empty results, empty `next`. -/
def respTerminal : HostResponse := { count := 0, next := "", previous := "", results := [] }

/-- An API whose every URL yields the terminal page. -/
def apiTerminal : API := fun _ => .page respTerminal

/-- The registry with no series and zeroed self-monitoring metrics. -/
def emptyRegistry : Registry :=
  { hostInfo := [], hostStatus := [], hostTimestamps := [], hostGroupMembership := [],
    groupInfo := [], scrapeErrors := 0, hostsProcessed := 0, scrapeDurationObs := 0 }

/-- C4 witness: the `buildURL` trichotomy and the loop fetch count evaluated
at concrete inputs. -/
theorem c4_witness :
    buildURL cfgW "https://x/y" = "https://x/y" ∧
    buildURL cfgW "page2" = (if cfgW.useHTTP then "http" else "https") ++ "://" ++
      cfgW.host ++ (if hasPrefix "page2" "/" = true then "page2" else "/" ++ "page2") ∧
    (scrapeLoop cfgW parseNone apiTerminal (0 + 1) "https://h/start" emptyRegistry).2.2 = 1 := by
  refine ⟨(c4_thm cfgW).1 "https://x/y" (by decide),
    (c4_thm cfgW).2.2.2.1 "page2" (by decide) (by decide) (by decide) (by decide),
    (c4_thm cfgW).2.2.2.2.2.1 parseNone apiTerminal 0 "https://h/start" emptyRegistry
      respTerminal (by decide) rfl ((c4_thm cfgW).2.1)⟩

/-- C6: for every job template the failed-host and total-host count gauges
are written keyed by (template id, template name); the last-run timestamp
gauge is written exactly when `last_job_run` is non-empty and parses as
RFC3339, and is skipped (counts still written) when absent or unparseable. -/
theorem c6_thm (parse : RFC3339Parser) (t : Tmpl.JobTemplate) :
    (t.lastJobRun = "" →
      Tmpl.processTemplate parse t =
        [.failedHosts (toString t.id) t.name t.summaryFields.hostsWithFailures,
         .totalHosts (toString t.id) t.name t.summaryFields.totalHosts]) ∧
    (∀ ts : Int, t.lastJobRun ≠ "" → parse t.lastJobRun = some ts →
      Tmpl.processTemplate parse t =
        [.lastRun (toString t.id) t.name ts,
         .failedHosts (toString t.id) t.name t.summaryFields.hostsWithFailures,
         .totalHosts (toString t.id) t.name t.summaryFields.totalHosts]) ∧
    (t.lastJobRun ≠ "" → parse t.lastJobRun = none →
      Tmpl.processTemplate parse t =
        [.failedHosts (toString t.id) t.name t.summaryFields.hostsWithFailures,
         .totalHosts (toString t.id) t.name t.summaryFields.totalHosts]) := by
  refine ⟨?_, ?_, ?_⟩
  · intro h
    simp [Tmpl.processTemplate, h]
  · intro ts h hp
    simp [Tmpl.processTemplate, h, hp]
  · intro h hp
    simp [Tmpl.processTemplate, h, hp]

/-- A timestamp string that parses (to Unix seconds 1704067200) under
`parseFixed`; every other string fails. -/
def goodTS : String := "2024-01-01T00:00:00Z"

/-- A parser accepting exactly `goodTS`. -/
def parseFixed : RFC3339Parser := fun s => if s = goodTS then some 1704067200 else none

/-- A job template that has never run. -/
def tmplA : Tmpl.JobTemplate :=
  { id := 4, name := "t", lastJobRun := "",
    summaryFields := { hostsWithFailures := 2, totalHosts := 5 } }

/-- A job template with a parseable last run. -/
def tmplB : Tmpl.JobTemplate :=
  { id := 6, name := "s", lastJobRun := goodTS,
    summaryFields := { hostsWithFailures := 0, totalHosts := 3 } }

/-- C6 witness: both branches evaluated at concrete templates. -/
theorem c6_witness :
    Tmpl.processTemplate parseFixed tmplA =
      [.failedHosts (toString tmplA.id) tmplA.name tmplA.summaryFields.hostsWithFailures,
       .totalHosts (toString tmplA.id) tmplA.name tmplA.summaryFields.totalHosts] ∧
    Tmpl.processTemplate parseFixed tmplB =
      [.lastRun (toString tmplB.id) tmplB.name 1704067200,
       .failedHosts (toString tmplB.id) tmplB.name tmplB.summaryFields.hostsWithFailures,
       .totalHosts (toString tmplB.id) tmplB.name tmplB.summaryFields.totalHosts] := by
  exact ⟨(c6_thm parseFixed tmplA).1 rfl,
    (c6_thm parseFixed tmplB).2.1 1704067200 (by decide) (by decide)⟩

/-- C7 (amended): only in the job-template variant is an unparseable
`SCRAPE_INTERVAL` duration a fatal startup error; in the hosts variant an
invalid interval value silently falls back to the 5-minute default instead of
failing startup. -/
theorem c7_thm :
    (∀ (parseDuration : String → Option Int) (env : String → Option String),
      (env "AWX_USERNAME").getD "" ≠ "" → (env "AWX_PASSWORD").getD "" ≠ "" →
      parseDuration (Tmpl.getEnv env "SCRAPE_INTERVAL" "24h") = none →
      Tmpl.loadConfig parseDuration env = .error "invalid SCRAPE_INTERVAL duration") ∧
    (∀ v : String, goAtoi v = none → getScrapeInterval v = defaultScrapeInterval) := by
  constructor
  · intro parseDuration env hu hp hpd
    simp only [Tmpl.getEnv] at hpd
    simp [Tmpl.loadConfig, Tmpl.getEnv, hu, hp, hpd]
  · intro v hv
    by_cases hve : v = ""
    · subst hve
      simp [getScrapeInterval]
    · simp [getScrapeInterval, hve, hv]

/-- C7 counterexample: the hosts variant's `getScrapeInterval`, on a value
that does not parse, returns the 5-minute default and startup proceeds —
refuting "for every configuration whose interval string does not parse,
startup fails rather than running with a default interval". -/
theorem c7_counterexample :
    goAtoi "abc" = none ∧ getScrapeInterval "abc" = defaultScrapeInterval := by
  decide

/-- Environment with credentials set and `SCRAPE_INTERVAL` unset. -/
def envW : String → Option String := fun k =>
  if k = "AWX_USERNAME" then some "u" else if k = "AWX_PASSWORD" then some "p" else none

/-- A duration parser under which every string fails. -/
def pdNone : String → Option Int := fun _ => none

/-- C7 witness: the amended behaviour evaluated at concrete inputs. -/
theorem c7_witness :
    Tmpl.loadConfig pdNone envW = .error "invalid SCRAPE_INTERVAL duration" ∧
    getScrapeInterval "xyz" = defaultScrapeInterval := by
  exact ⟨(c7_thm).1 pdNone envW (by decide) (by decide) rfl,
    (c7_thm).2 "xyz" (by decide)⟩

/-- C3: a host with no groups yields exactly the two host-status writes with
group label "none"; a host with N>0 groups yields exactly 2N host-status
writes (the two per group carrying the same values fanned out across all
groups), N membership writes keyed by (host id, host name, group id, group
name) and N group-info writes keyed by (group id, group name, inventory
id). -/
theorem c3_thm (host : Host) (idStr invIDStr : String) :
    (host.summaryFields.groups.results = [] →
      processHostStatus host idStr =
        [.status [idStr, host.name, "active_failures", "none"]
           (boolToFloat host.hasActiveFailures),
         .status [idStr, host.name, "inventory_sources", "none"]
           (boolToFloat host.hasInventorySources)]) ∧
    (host.summaryFields.groups.results ≠ [] →
      (processHostStatus host idStr).length =
        2 * host.summaryFields.groups.results.length ∧
      ∀ g ∈ host.summaryFields.groups.results,
        (MetricWrite.status [idStr, host.name, "active_failures", g.name]
          (boolToFloat host.hasActiveFailures)) ∈ processHostStatus host idStr ∧
        (MetricWrite.status [idStr, host.name, "inventory_sources", g.name]
          (boolToFloat host.hasInventorySources)) ∈ processHostStatus host idStr) ∧
    (processHostGroups host idStr invIDStr).countP isMembershipWrite =
      host.summaryFields.groups.results.length ∧
    (processHostGroups host idStr invIDStr).countP isGinfoWrite =
      host.summaryFields.groups.results.length ∧
    (∀ g ∈ host.summaryFields.groups.results,
      (MetricWrite.membership [idStr, host.name, toString g.id, g.name] 1) ∈
        processHostGroups host idStr invIDStr ∧
      (MetricWrite.ginfo [toString g.id, g.name, invIDStr] 1) ∈
        processHostGroups host idStr invIDStr) := by
  refine ⟨?_, ?_, ?_, ?_, ?_⟩
  · intro h
    simp [processHostStatus, h]
  · intro h
    constructor
    · simp only [processHostStatus, h, if_false]
      exact length_flatMap_pair host.summaryFields.groups.results _ _
    · intro g hg
      constructor <;>
        · simp only [processHostStatus, h, if_false, List.mem_flatMap]
          exact ⟨g, hg, by simp⟩
  · exact countP_flatMap_pair host.summaryFields.groups.results _ _ isMembershipWrite
      (fun a => rfl) (fun a => rfl)
  · exact countP_flatMap_pair_right host.summaryFields.groups.results _ _ isGinfoWrite
      (fun a => rfl) (fun a => rfl)
  · intro g hg
    constructor <;>
      · simp only [processHostGroups, List.mem_flatMap]
        exact ⟨g, hg, by simp⟩

/-- A host with no groups. -/
def hostNoGroups : Host :=
  { id := 1, created := goodTS, modified := goodTS, name := "a", inventory := 2,
    enabled := true, instanceID := "", hasActiveFailures := false,
    hasInventorySources := false, ansibleFactsModified := none,
    summaryFields := { inventory := { id := 2, name := "inv" },
                       groups := { count := 0, results := [] } } }

/-- A host in two groups. -/
def hostTwoGroups : Host :=
  { id := 2, created := goodTS, modified := goodTS, name := "b", inventory := 2,
    enabled := false, instanceID := "i", hasActiveFailures := true,
    hasInventorySources := false, ansibleFactsModified := none,
    summaryFields := { inventory := { id := 2, name := "inv" },
                       groups := { count := 2,
                                   results := [{ id := 10, name := "g1" },
                                               { id := 11, name := "g2" }] } } }

/-- C3 witness: both branches evaluated at concrete hosts. -/
theorem c3_witness :
    processHostStatus hostNoGroups "1" =
      [.status ["1", hostNoGroups.name, "active_failures", "none"]
         (boolToFloat hostNoGroups.hasActiveFailures),
       .status ["1", hostNoGroups.name, "inventory_sources", "none"]
         (boolToFloat hostNoGroups.hasInventorySources)] ∧
    (processHostStatus hostTwoGroups "2").length =
      2 * hostTwoGroups.summaryFields.groups.results.length ∧
    (processHostGroups hostTwoGroups "2" "2").countP isMembershipWrite =
      hostTwoGroups.summaryFields.groups.results.length := by
  exact ⟨(c3_thm hostNoGroups "1" "2").1 rfl,
    ((c3_thm hostTwoGroups "2" "2").2.1 (by decide)).1,
    (c3_thm hostTwoGroups "2" "2").2.2.1⟩

/-- A host whose `modified` timestamp fails to parse under `parseFixed` but
whose `created` parses, and which belongs to one group. -/
def hostBadModified : Host :=
  { id := 7, created := goodTS, modified := "notatime", name := "h1", inventory := 3,
    enabled := true, instanceID := "", hasActiveFailures := false,
    hasInventorySources := true, ansibleFactsModified := none,
    summaryFields := { inventory := { id := 3, name := "inv" },
                       groups := { count := 1, results := [{ id := 9, name := "g1" }] } } }

/-- C2 counterexample: for a host whose `modified` fails parsing, the claim
says its group-membership and group-info gauges are still emitted; the code
returns from `processHost` before `processHostGroups`, so a host with one
group gets zero membership and zero group-info writes. -/
theorem c2_counterexample :
    parseFixed hostBadModified.modified = none ∧
    hostBadModified.summaryFields.groups.results ≠ [] ∧
    (processHost parseFixed hostBadModified).1.countP isMembershipWrite = 0 ∧
    (processHost parseFixed hostBadModified).1.countP isGinfoWrite = 0 := by
  decide

/-- C2 (amended): a host with parseable `created` and unparseable `modified`
still yields its info write, its status writes and its created-timestamp
write, but its modified/facts timestamps AND its group-membership and
group-info writes are all omitted (the timestamp error aborts the host); the
remaining hosts of the page are still processed and counted. -/
theorem c2_thm (parse : RFC3339Parser) (host : Host) (t : Int)
    (hc : parse host.created = some t) (hm : parse host.modified = none) :
    (processHost parse host).1 =
      MetricWrite.info [toString host.id, host.name,
          toString host.summaryFields.inventory.id, host.summaryFields.inventory.name,
          boolToString host.enabled, host.instanceID] 1 ::
        (processHostStatus host (toString host.id) ++
          [MetricWrite.tstamp [toString host.id, host.name, "created"] t]) ∧
    (processHost parse host).2 = false ∧
    (∀ (rest : List Host) (r : Registry),
      processHosts parse (host :: rest) r =
        IncrementHostsProcessed (rest.length + 1)
          (applyWrites (applyWrites r (processHost parse host).1)
            (processHostsWrites parse rest))) := by
  have hts : processHostTimestamps parse host (toString host.id) =
      ([MetricWrite.tstamp [toString host.id, host.name, "created"] t], false) := by
    simp [processHostTimestamps, setTimestampMetric, hc, hm]
  refine ⟨?_, ?_, ?_⟩
  · simp [processHost, hts]
  · simp [processHost, hts]
  · intro rest r
    rw [processHosts_eq parse (host :: rest) r (by simp)]
    simp [processHostsWrites, List.flatMap_cons, applyWrites_append]

/-- C2 witness: the amended behaviour evaluated at the concrete host. -/
theorem c2_witness :
    parseFixed hostBadModified.created = some 1704067200 ∧
    parseFixed hostBadModified.modified = none ∧
    (processHost parseFixed hostBadModified).2 = false := by
  exact ⟨by decide, by decide,
    (c2_thm parseFixed hostBadModified 1704067200 (by decide) (by decide)).2.1⟩

/-- C8: `ResetAllMetrics` clears exactly the five entity gauge families and
leaves the three self-monitoring metrics unchanged; and no operation of the
scrape cycle ever resets (decreases) those three — across a whole
`updateMetrics` iteration they are monotone. -/
theorem c8_thm :
    (∀ r : Registry,
      (ResetAllMetrics r).hostInfo = [] ∧
      (ResetAllMetrics r).hostStatus = [] ∧
      (ResetAllMetrics r).hostTimestamps = [] ∧
      (ResetAllMetrics r).hostGroupMembership = [] ∧
      (ResetAllMetrics r).groupInfo = [] ∧
      (ResetAllMetrics r).scrapeErrors = r.scrapeErrors ∧
      (ResetAllMetrics r).hostsProcessed = r.hostsProcessed ∧
      (ResetAllMetrics r).scrapeDurationObs = r.scrapeDurationObs) ∧
    (∀ (config : AWXConfig) (parse : RFC3339Parser) (api : API) (fuel : Nat) (r : Registry),
      r.scrapeErrors ≤ (updateMetricsStep config parse api fuel r).scrapeErrors ∧
      r.hostsProcessed ≤ (updateMetricsStep config parse api fuel r).hostsProcessed ∧
      r.scrapeDurationObs ≤ (updateMetricsStep config parse api fuel r).scrapeDurationObs) := by
  constructor
  · intro r
    exact ⟨rfl, rfl, rfl, rfl, rfl, rfl, rfl, rfl⟩
  · intro config parse api fuel r
    have hm := scrapeLoop_monotone config parse api fuel
      (buildURL config "/api/v2/hosts/?format=json") (ResetAllMetrics r)
    have he : (ResetAllMetrics r).scrapeErrors = r.scrapeErrors := rfl
    have hh : (ResetAllMetrics r).hostsProcessed = r.hostsProcessed := rfl
    have hd : (ResetAllMetrics r).scrapeDurationObs = r.scrapeDurationObs := rfl
    rw [he, hh, hd] at hm
    obtain ⟨hm1, hm2, hm3⟩ := hm
    by_cases hb : (scrapeLoop config parse api fuel
        (buildURL config "/api/v2/hosts/?format=json") (ResetAllMetrics r)).2.1 <;>
      refine ⟨?_, ?_, ?_⟩ <;>
      simp [updateMetricsStep, fetchAndUpdateMetrics, hb, RecordScrapeError,
        ObserveScrapeDuration] <;>
      omega

/-- Lookup in one gauge family is unchanged by running `processHosts` a
second time over the same input. -/
lemma glookup_processHosts_twice (get : Registry → GaugeVec)
    (sel : MetricWrite → Option (LabelValues × Int))
    (hcompat : ∀ r w, get (applyWrite r w) =
      match sel w with
      | some kv => gset kv.1 kv.2 (get r)
      | none => get r)
    (hinc : ∀ (n : Nat) (x : Registry), get (IncrementHostsProcessed n x) = get x)
    (parse : RFC3339Parser) (hosts : List Host) (r : Registry) (q : LabelValues) :
    glookup (get (processHosts parse hosts (processHosts parse hosts r))) q =
      glookup (get (processHosts parse hosts r)) q := by
  by_cases h : hosts = []
  · simp [processHosts, h]
  · rw [processHosts_eq parse hosts (processHosts parse hosts r) h, hinc]
    have hcongr := glookup_applyWrites_congr get sel hcompat
      (processHostsWrites parse hosts) (processHosts parse hosts r)
      (applyWrites r (processHostsWrites parse hosts)) q
      (by rw [processHosts_eq parse hosts r h, hinc])
    rw [hcongr]
    rw [glookup_applyWrites_idem get sel hcompat (processHostsWrites parse hosts) r q]
    rw [processHosts_eq parse hosts r h, hinc]

/-- C9 (amended): re-running the host transformer over identical input leaves
every series of all five entity gauge families with the same value as after
the first run (gauge writes are idempotent), but `hosts_processed_total`
grows by the page length again — so the registry snapshot as a whole is not
identical. -/
theorem c9_thm (parse : RFC3339Parser) (hosts : List Host) (r : Registry)
    (q : LabelValues) :
    glookup (processHosts parse hosts (processHosts parse hosts r)).hostInfo q =
      glookup (processHosts parse hosts r).hostInfo q ∧
    glookup (processHosts parse hosts (processHosts parse hosts r)).hostStatus q =
      glookup (processHosts parse hosts r).hostStatus q ∧
    glookup (processHosts parse hosts (processHosts parse hosts r)).hostTimestamps q =
      glookup (processHosts parse hosts r).hostTimestamps q ∧
    glookup (processHosts parse hosts (processHosts parse hosts r)).hostGroupMembership q =
      glookup (processHosts parse hosts r).hostGroupMembership q ∧
    glookup (processHosts parse hosts (processHosts parse hosts r)).groupInfo q =
      glookup (processHosts parse hosts r).groupInfo q ∧
    (processHosts parse hosts (processHosts parse hosts r)).hostsProcessed =
      (processHosts parse hosts r).hostsProcessed + hosts.length := by
  refine ⟨glookup_processHosts_twice Registry.hostInfo selInfo hcompat_info
      (fun n x => rfl) parse hosts r q,
    glookup_processHosts_twice Registry.hostStatus selStatus hcompat_status
      (fun n x => rfl) parse hosts r q,
    glookup_processHosts_twice Registry.hostTimestamps selTstamp hcompat_tstamp
      (fun n x => rfl) parse hosts r q,
    glookup_processHosts_twice Registry.hostGroupMembership selMembership hcompat_membership
      (fun n x => rfl) parse hosts r q,
    glookup_processHosts_twice Registry.groupInfo selGinfo hcompat_ginfo
      (fun n x => rfl) parse hosts r q,
    processHosts_hostsProcessed parse hosts (processHosts parse hosts r)⟩

/-- A parser under which every timestamp string parses to 100. -/
def parseConst : RFC3339Parser := fun _ => some 100

/-- C9 counterexample: running the transformer twice over the same one-host
page does not reproduce the same registry snapshot — `hosts_processed_total`
differs (2 vs 1). -/
theorem c9_counterexample :
    processHosts parseConst [hostNoGroups] (processHosts parseConst [hostNoGroups] emptyRegistry) ≠
      processHosts parseConst [hostNoGroups] emptyRegistry := by
  decide

/-- C1 (amended): when page 1 decodes but page 2 fails (fetch of the resolved
`next` URL yields a JSON decode error), the scrape leaves the entity families
holding exactly the data of the already-processed page 1 applied on top of
the reset (the previous scrape's series are gone), and `scrape_errors_total`
grows by exactly 2: once inside `fetchAndUpdateMetrics` and once more in the
`updateMetrics` loop that receives the returned error. -/
theorem c1_thm (config : AWXConfig) (parse : RFC3339Parser) (api : API) (r : Registry)
    (p1 : HostResponse) (fuel : Nat)
    (h1 : api (buildURL config "/api/v2/hosts/?format=json") = .page p1)
    (h2 : buildURL config p1.next ≠ "")
    (h3 : api (buildURL config p1.next) = .decodeError) :
    updateMetricsStep config parse api (fuel + 2) r =
      RecordScrapeError (ObserveScrapeDuration (RecordScrapeError
        (processHosts parse p1.results (ResetAllMetrics r)))) ∧
    (updateMetricsStep config parse api (fuel + 2) r).scrapeErrors = r.scrapeErrors + 2 ∧
    (updateMetricsStep config parse api (fuel + 2) r).hostInfo =
      (processHosts parse p1.results (ResetAllMetrics r)).hostInfo ∧
    (updateMetricsStep config parse api (fuel + 2) r).hostStatus =
      (processHosts parse p1.results (ResetAllMetrics r)).hostStatus ∧
    (updateMetricsStep config parse api (fuel + 2) r).hostTimestamps =
      (processHosts parse p1.results (ResetAllMetrics r)).hostTimestamps ∧
    (updateMetricsStep config parse api (fuel + 2) r).hostGroupMembership =
      (processHosts parse p1.results (ResetAllMetrics r)).hostGroupMembership ∧
    (updateMetricsStep config parse api (fuel + 2) r).groupInfo =
      (processHosts parse p1.results (ResetAllMetrics r)).groupInfo ∧
    (updateMetricsStep config parse api (fuel + 2) r).hostsProcessed =
      r.hostsProcessed + p1.results.length := by
  have hu0 := buildURL_start_ne_empty config
  have hloop : scrapeLoop config parse api (fuel + 2)
      (buildURL config "/api/v2/hosts/?format=json") (ResetAllMetrics r) =
      (RecordScrapeError (processHosts parse p1.results (ResetAllMetrics r)), true, 2) := by
    simp [scrapeLoop, hu0, h1, h2, h3]
  have hmain : updateMetricsStep config parse api (fuel + 2) r =
      RecordScrapeError (ObserveScrapeDuration (RecordScrapeError
        (processHosts parse p1.results (ResetAllMetrics r)))) := by
    simp [updateMetricsStep, fetchAndUpdateMetrics, hloop]
  refine ⟨hmain, ?_, ?_, ?_, ?_, ?_, ?_, ?_⟩
  · rw [hmain]
    show (processHosts parse p1.results (ResetAllMetrics r)).scrapeErrors + 1 + 1 =
      r.scrapeErrors + 2
    rw [processHosts_scrapeErrors]
    rfl
  · rw [hmain]; simp [RecordScrapeError, ObserveScrapeDuration]
  · rw [hmain]; simp [RecordScrapeError, ObserveScrapeDuration]
  · rw [hmain]; simp [RecordScrapeError, ObserveScrapeDuration]
  · rw [hmain]; simp [RecordScrapeError, ObserveScrapeDuration]
  · rw [hmain]; simp [RecordScrapeError, ObserveScrapeDuration]
  · rw [hmain]
    show (processHosts parse p1.results (ResetAllMetrics r)).hostsProcessed =
      r.hostsProcessed + p1.results.length
    rw [processHosts_hostsProcessed]
    rfl

/-- Configuration of the concrete failing-scrape scenario. -/
def cfg1 : AWXConfig :=
  { host := "awx", user := "u", password := "p", useHTTP := true, tlsInsecure := false }

/-- A host appearing only in the failed scrape's first page. -/
def hostNew : Host :=
  { id := 2, created := goodTS, modified := goodTS, name := "new", inventory := 1,
    enabled := true, instanceID := "", hasActiveFailures := false,
    hasInventorySources := false, ansibleFactsModified := none,
    summaryFields := { inventory := { id := 1, name := "inv" },
                       groups := { count := 0, results := [] } } }

/-- Page 1 of the failing scrape: one host, `next` pointing at page 2. -/
def pageOne : HostResponse :=
  { count := 1, next := "/p2", previous := "", results := [hostNew] }

/-- An API that serves page 1 and then fails JSON decoding on page 2. -/
def api1 : API := fun u =>
  if u = "http://awx/api/v2/hosts/?format=json" then .page pageOne
  else if u = "http://awx/p2" then .decodeError
  else .fetchError

/-- The registry left by a previous successful scrape (one host-info series
for a host named "old"). -/
def rPrev : Registry :=
  { hostInfo := [(["1", "old", "1", "inv", "true", ""], 1)], hostStatus := [],
    hostTimestamps := [], hostGroupMembership := [], groupInfo := [],
    scrapeErrors := 0, hostsProcessed := 0, scrapeDurationObs := 0 }

/-- C1 counterexample: a scrape that fails decoding on page 2 neither leaves
the metrics as they were after the previous successful scrape (page-1 data is
published, the old series is gone) nor increments `scrape_errors_total` by
exactly 1 (it grows by 2). -/
theorem c1_counterexample :
    ¬ ((updateMetricsStep cfg1 parseConst api1 5 rPrev).hostInfo = rPrev.hostInfo ∧
       (updateMetricsStep cfg1 parseConst api1 5 rPrev).hostStatus = rPrev.hostStatus ∧
       (updateMetricsStep cfg1 parseConst api1 5 rPrev).hostTimestamps = rPrev.hostTimestamps ∧
       (updateMetricsStep cfg1 parseConst api1 5 rPrev).hostGroupMembership =
         rPrev.hostGroupMembership ∧
       (updateMetricsStep cfg1 parseConst api1 5 rPrev).groupInfo = rPrev.groupInfo ∧
       (updateMetricsStep cfg1 parseConst api1 5 rPrev).scrapeErrors =
         rPrev.scrapeErrors + 1) := by
  decide

/-- C1 witness: the amended behaviour evaluated at the concrete scenario. -/
theorem c1_witness :
    (updateMetricsStep cfg1 parseConst api1 (3 + 2) rPrev).scrapeErrors =
      rPrev.scrapeErrors + 2 :=
  (c1_thm cfg1 parseConst api1 rPrev pageOne 3 (by decide) (by decide) (by decide)).2.1

end Awx

